import Mathlib

/-!
Verification development for the grid-trading repository
(React/TypeScript frontend `src/src`, Express proxy `src/server.js`,
plus the unnamed variants under `src/unnamed`).

Each definition below is a shallow embedding of one function of the source,
translated as written there; theorems at the end of the file settle the
specification claims against these definitions.  Numeric values of the grid
model are embedded as rationals, byte strings as lists of naturals below 256,
and the platform HMAC-SHA256 primitive (both `crypto.subtle` in the browser
client and `crypto.createHmac` in the Node proxy implement FIPS 180-4 /
RFC 2104) is embedded once, executably, as `sha256` / `hmacSHA256`.
-/

/-! ## Grid settings (src/src/hooks/useGridSettings.ts) -/

/-- Embedding of the `GridSettings` interface of
`src/src/hooks/useGridSettings.ts` (lines 3-10).  Prices are rationals;
`gridNumber` is kept at its intended integer type. -/
structure GridSettings where
  upperLimit : ℚ
  lowerLimit : ℚ
  gridNumber : ℕ
  initialInvestment : ℚ
  stopLoss : ℚ
  takeProfitLevel : ℚ
  deriving Repr, DecidableEq

/-- The `defaultSettings` literal of `useGridSettings` (lines 14-21). -/
def defaultSettings : GridSettings :=
  { upperLimit := 30000
    lowerLimit := 25000
    gridNumber := 10
    initialInvestment := 1000
    stopLoss := 24000
    takeProfitLevel := 31000 }

/-- A partial update, mirroring `Partial GridSettings` as used by
`updateSettings` (line 41): each field may or may not be present. -/
structure PartialGridSettings where
  upperLimit : Option ℚ := none
  lowerLimit : Option ℚ := none
  gridNumber : Option ℕ := none
  initialInvestment : Option ℚ := none
  stopLoss : Option ℚ := none
  takeProfitLevel : Option ℚ := none
  deriving Repr, DecidableEq

/-- Embedding of `updateSettings` (useGridSettings.ts lines 41-47):
`setSettings(prev => (...prev, ...newSettings))` is an unconditional
object-spread merge; there is no validation and no failure path, so the
embedding is a total function returning the merged settings. -/
def updateSettings (prev : GridSettings) (newSettings : PartialGridSettings) :
    GridSettings :=
  { upperLimit := newSettings.upperLimit.getD prev.upperLimit
    lowerLimit := newSettings.lowerLimit.getD prev.lowerLimit
    gridNumber := newSettings.gridNumber.getD prev.gridNumber
    initialInvestment := newSettings.initialInvestment.getD prev.initialInvestment
    stopLoss := newSettings.stopLoss.getD prev.stopLoss
    takeProfitLevel := newSettings.takeProfitLevel.getD prev.takeProfitLevel }

/-- Embedding of `calculateGridInterval` (useGridSettings.ts lines 62-64). -/
def calculateGridInterval (s : GridSettings) : ℚ :=
  (s.upperLimit - s.lowerLimit) / (s.gridNumber : ℚ)

/-- Embedding of `calculateGridLines` (useGridSettings.ts lines 67-74):
the interval is computed once and the levels are
`Array.from (length := gridNumber + 1, fun i => lowerLimit + interval * i)`. -/
def calculateGridLines (s : GridSettings) : List ℚ :=
  let interval : ℚ := (s.upperLimit - s.lowerLimit) / (s.gridNumber : ℚ)
  (List.range (s.gridNumber + 1)).map (fun (i : ℕ) => s.lowerLimit + interval * (i : ℚ))

/-! ## HMAC-SHA256 and hex encoding

Both signing implementations of the repository defer to a platform
HMAC-SHA256 primitive (`crypto.subtle.sign` with `SHA-256` in
`src/src/services/binanceApi.ts`, `crypto.createHmac('sha256', ...)` in
`src/server.js`).  The primitive itself is specified by FIPS 180-4 and
RFC 2104 and is embedded here once, executably, over byte lists. -/

/-- Reduction to a 32-bit word. -/
def w32 (n : ℕ) : ℕ := n % 4294967296

/-- 32-bit right rotation. -/
def rotr (n w : ℕ) : ℕ := w32 ((w >>> n) ||| (w <<< (32 - n)))

/-- 32-bit complement (inputs are kept below `2 ^ 32`). -/
def not32 (w : ℕ) : ℕ := w ^^^ 4294967295

/-- SHA-256 `Ch` function. -/
def ch (x y z : ℕ) : ℕ := (x &&& y) ^^^ (not32 x &&& z)

/-- SHA-256 `Maj` function. -/
def maj (x y z : ℕ) : ℕ := (x &&& y) ^^^ (x &&& z) ^^^ (y &&& z)

/-- SHA-256 big sigma 0. -/
def bigS0 (x : ℕ) : ℕ := rotr 2 x ^^^ rotr 13 x ^^^ rotr 22 x

/-- SHA-256 big sigma 1. -/
def bigS1 (x : ℕ) : ℕ := rotr 6 x ^^^ rotr 11 x ^^^ rotr 25 x

/-- SHA-256 small sigma 0. -/
def smallS0 (x : ℕ) : ℕ := rotr 7 x ^^^ rotr 18 x ^^^ (x >>> 3)

/-- SHA-256 small sigma 1. -/
def smallS1 (x : ℕ) : ℕ := rotr 17 x ^^^ rotr 19 x ^^^ (x >>> 10)

/-- The SHA-256 round constants. -/
def K256 : List ℕ :=
  [1116352408, 1899447441, 3049323471, 3921009573, 961987163,
   1508970993, 2453635748, 2870763221, 3624381080, 310598401,
   607225278, 1426881987, 1925078388, 2162078206, 2614888103,
   3248222580, 3835390401, 4022224774, 264347078, 604807628,
   770255983, 1249150122, 1555081692, 1996064986, 2554220882,
   2821834349, 2952996808, 3210313671, 3336571891, 3584528711,
   113926993, 338241895, 666307205, 773529912, 1294757372,
   1396182291, 1695183700, 1986661051, 2177026350, 2456956037,
   2730485921, 2820302411, 3259730800, 3345764771, 3516065817,
   3600352804, 4094571909, 275423344, 430227734, 506948616,
   659060556, 883997877, 958139571, 1322822218, 1537002063,
   1747873779, 1955562222, 2024104815, 2227730452, 2361852424,
   2428436474, 2756734187, 3204031479, 3329325298]

/-- The SHA-256 initial hash value. -/
def H256 : List ℕ :=
  [1779033703, 3144134277, 1013904242, 2773480762,
   1359893119, 2600822924, 528734635, 1541459225]

/-- Big-endian packing of bytes into 32-bit words. -/
def bytesToWords : List ℕ → List ℕ
  | b0 :: b1 :: b2 :: b3 :: rest =>
      (b0 <<< 24 ||| b1 <<< 16 ||| b2 <<< 8 ||| b3) :: bytesToWords rest
  | _ => []

/-- One message-schedule extension step: appends the next `w` word. -/
def scheduleStep (ws : List ℕ) : List ℕ :=
  ws ++ [w32 (smallS1 (ws.getD (ws.length - 2) 0) + ws.getD (ws.length - 7) 0 +
              smallS0 (ws.getD (ws.length - 15) 0) + ws.getD (ws.length - 16) 0)]

/-- Iterated message-schedule extension. -/
def extendSchedule : ℕ → List ℕ → List ℕ
  | 0, ws => ws
  | n + 1, ws => extendSchedule n (scheduleStep ws)

/-- One SHA-256 compression round; the state is the eight working
variables `a .. h`. -/
def compressStep (st : List ℕ) (kw : ℕ × ℕ) : List ℕ :=
  let a := st.getD 0 0
  let b := st.getD 1 0
  let c := st.getD 2 0
  let d := st.getD 3 0
  let e := st.getD 4 0
  let f := st.getD 5 0
  let g := st.getD 6 0
  let h := st.getD 7 0
  let t1 := w32 (h + bigS1 e + ch e f g + kw.1 + kw.2)
  let t2 := w32 (bigS0 a + maj a b c)
  [w32 (t1 + t2), a, b, c, w32 (d + t1), e, f, g]

/-- Compression of one padded 64-byte chunk into the running hash. -/
def compressChunk (h : List ℕ) (chunk : List ℕ) : List ℕ :=
  let ws := extendSchedule 48 (bytesToWords chunk)
  let final := (K256.zip ws).foldl compressStep h
  List.zipWith (fun x y => w32 (x + y)) h final

/-- Big-endian 8-byte encoding of the bit length. -/
def lenBytes (n : ℕ) : List ℕ :=
  [(n >>> 56) % 256, (n >>> 48) % 256, (n >>> 40) % 256, (n >>> 32) % 256,
   (n >>> 24) % 256, (n >>> 16) % 256, (n >>> 8) % 256, n % 256]

/-- SHA-256 message padding: a `0x80` byte, zeros to 56 mod 64, then the
64-bit big-endian bit length. -/
def shaPad (msg : List ℕ) : List ℕ :=
  msg ++ [128] ++ List.replicate ((64 + 56 - ((msg.length + 1) % 64)) % 64) 0 ++
    lenBytes (msg.length * 8)

/-- Splits a padded message into 64-byte chunks. -/
def chunks64 (l : List ℕ) : List (List ℕ) :=
  match l with
  | [] => []
  | _ :: rest => l.take 64 :: chunks64 (rest.drop 63)
termination_by l.length
decreasing_by simp [List.length_drop]; omega

/-- Big-endian byte decomposition of a 32-bit word. -/
def wordBytes (w : ℕ) : List ℕ :=
  [(w >>> 24) % 256, (w >>> 16) % 256, (w >>> 8) % 256, w % 256]

/-- SHA-256 over a byte list (FIPS 180-4), the hash primitive invoked by
both signing implementations through their platform crypto libraries. -/
def sha256 (msg : List ℕ) : List ℕ :=
  (((chunks64 (shaPad msg)).foldl compressChunk H256).map wordBytes).flatten

/-- RFC 2104 key preparation for the 64-byte HMAC-SHA256 block size: keys
longer than a block are hashed first, then the key is zero-padded to the
block size. -/
def hmacKeyPad (key : List ℕ) : List ℕ :=
  let k0 := if 64 < key.length then sha256 key else key
  k0 ++ List.replicate (64 - k0.length) 0

/-- HMAC-SHA256 (RFC 2104). -/
def hmacSHA256 (key msg : List ℕ) : List ℕ :=
  sha256 ((hmacKeyPad key).map (fun b => b ^^^ 92) ++
    sha256 ((hmacKeyPad key).map (fun b => b ^^^ 54) ++ msg))

/-- UTF-8 encoding of one code point, as performed by `TextEncoder` in the
browser and by `Buffer.from(-, 'utf8')` inside Node's `hmac.update`. -/
def utf8Char (n : ℕ) : List ℕ :=
  if n < 128 then [n]
  else if n < 2048 then [192 ||| (n >>> 6), 128 ||| (n &&& 63)]
  else if n < 65536 then
    [224 ||| (n >>> 12), 128 ||| ((n >>> 6) &&& 63), 128 ||| (n &&& 63)]
  else
    [240 ||| (n >>> 18), 128 ||| ((n >>> 12) &&& 63),
     128 ||| ((n >>> 6) &&& 63), 128 ||| (n &&& 63)]

/-- UTF-8 encoding of a string. -/
def utf8Encode (s : String) : List ℕ :=
  (s.toList.map (fun c => utf8Char c.toNat)).flatten

/-- JavaScript `Number.prototype.toString(16)` on a natural number:
lowercase hex digits, no leading zeros (`"0"` for zero). -/
def natToString16 (n : ℕ) : String := String.mk (Nat.toDigits 16 n)

/-- JavaScript `String.prototype.padStart(2, '0')`. -/
def padStart2 (s : String) : String :=
  if s.length < 2 then String.mk (List.replicate (2 - s.length) '0') ++ s else s

/-- Per-byte hex encoding of the browser client
(`b.toString(16).padStart(2, '0')`, binanceApi.ts lines 62-64). -/
def jsByteToHex (b : ℕ) : String := padStart2 (natToString16 b)

/-- Per-byte hex encoding of Node's `digest('hex')`: exactly two lowercase
hex digits per byte. -/
def nodeByteToHex (b : ℕ) : String :=
  String.mk [Nat.digitChar (b / 16), Nat.digitChar (b % 16)]

/-- The browser client's hex rendering of a signature byte string
(`Array.from(new Uint8Array(signature)).map(...).join('')`). -/
def browserHexOfBytes (bytes : List ℕ) : String :=
  String.join (bytes.map jsByteToHex)

/-- The proxy's hex rendering of a signature byte string (`digest('hex')`). -/
def nodeHexOfBytes (bytes : List ℕ) : String :=
  String.join (bytes.map nodeByteToHex)

/-! ## The browser exchange client (src/src/services/binanceApi.ts) -/

/-- A description of one HTTP request as built by the source: the assembled
URL, method, headers, the timeout installed around the call (`none` when the
source installs no timeout), and the signature query parameter if one is
appended (`none` for unsigned requests). -/
structure RequestSpec where
  url : String
  method : String
  headers : List (String × String)
  timeoutMs : Option ℕ
  signatureParam : Option String
  deriving Repr, DecidableEq

/-- Rendering of `URLSearchParams.toString()` for the alphanumeric keys and
values the client uses (insertion order, no characters needing escaping). -/
def renderQuery (params : List (String × String)) : String :=
  String.intercalate "&" (params.map (fun p => p.1 ++ "=" ++ p.2))

namespace BinanceApi

/-- `TEST_API_BASE_URL` (binanceApi.ts line 1). -/
def testBaseUrl : String := "https://testnet.binance.vision/api/v3"

/-- `MAIN_API_BASE_URL` (binanceApi.ts line 2). -/
def mainBaseUrl : String := "https://api.binance.com/api/v3"

/-- The `BinanceConfig` interface (binanceApi.ts lines 4-8). -/
structure BinanceConfig where
  apiKey : String
  apiSecret : String
  testMode : Bool
  deriving Repr, DecidableEq

/-- The private state of `BinanceApiClient` as set by its constructor
(binanceApi.ts lines 21-30). -/
structure Client where
  apiKey : String
  apiSecret : String
  baseUrl : String
  deriving Repr, DecidableEq

/-- The constructor of `BinanceApiClient`. -/
def Client.ofConfig (c : BinanceConfig) : Client :=
  { apiKey := c.apiKey
    apiSecret := c.apiSecret
    baseUrl := if c.testMode then testBaseUrl else mainBaseUrl }

/-- Embedding of the browser `generateSignature` (binanceApi.ts lines 42-69):
UTF-8 encode `this.apiSecret` and the query string, HMAC-SHA256 via
`crypto.subtle`, then per-byte `toString(16).padStart(2, '0')` joined. -/
def generateSignature (client : Client) (queryString : String) : String :=
  browserHexOfBytes
    (hmacSHA256 (utf8Encode client.apiSecret) (utf8Encode queryString))

/-- The request assembled by `makeRequest` (binanceApi.ts lines 71-97):
query = params plus a `timestamp`, a signature appended to the URL, the
`X-MBX-APIKEY` header, and an `AbortController` timeout of 10000 ms. -/
def makeRequestSpec (client : Client) (endpoint : String)
    (params : List (String × String)) (timestamp : String) : RequestSpec :=
  let queryString := renderQuery (params ++ [("timestamp", timestamp)])
  let signature := generateSignature client queryString
  { url := client.baseUrl ++ endpoint ++ "?" ++ queryString ++
      "&signature=" ++ signature
    method := "GET"
    headers := [("X-MBX-APIKEY", client.apiKey)]
    timeoutMs := some 10000
    signatureParam := some signature }

/-- The ways the `fetch` inside `makeRequest` can fail. -/
inductive FetchFailure where
  | abortError
  | failedToFetch
  | other (msg : String)
  deriving Repr, DecidableEq

/-- The error message `makeRequest` raises for each failure
(binanceApi.ts lines 114-121): an `AbortError` (the fired timeout) and a
network-level `TypeError` are mapped to distinct messages. -/
def makeRequestFailureMessage : FetchFailure → String
  | .abortError => "リクエストがタイムアウトしました"
  | .failedToFetch =>
      "ネットワーク接続エラーが発生しました。インターネット接続とCORS設定を確認してください。"
  | .other msg => msg

/-- The request built by `getCurrentPrice` (binanceApi.ts lines 201-210):
it delegates to `makeRequest('/ticker/price', (symbol))`. -/
def getCurrentPriceRequest (client : Client) (symbol timestamp : String) :
    RequestSpec :=
  makeRequestSpec client "/ticker/price" [("symbol", symbol)] timestamp

/-- The request built by `getAccountBalance` via `makeRequest('/account')`
(binanceApi.ts lines 173-176). -/
def getAccountBalanceRequest (client : Client) (timestamp : String) :
    RequestSpec :=
  makeRequestSpec client "/account" [] timestamp

/-- The request built inside `validateCredentials` (binanceApi.ts lines
144-157): a signed `/account` GET issued with a bare `fetch` — no
`AbortController`, hence no timeout. -/
def validateCredentialsRequest (client : Client) (timestamp : String) :
    RequestSpec :=
  let queryString := "timestamp=" ++ timestamp
  let signature := generateSignature client queryString
  { url := client.baseUrl ++ "/account?" ++ queryString ++
      "&signature=" ++ signature
    method := "GET"
    headers := [("X-MBX-APIKEY", client.apiKey)]
    timeoutMs := none
    signatureParam := some signature }

/-- The possible outcomes of the `fetch` inside `validateCredentials`:
a 2xx response, a non-2xx response, or a raised exception (network failure,
timeout, JSON parse failure, signature-generation failure). -/
inductive FetchOutcome where
  | ok (body : String)
  | httpError (status : ℕ) (body : String)
  | thrown (msg : String)
  deriving Repr, DecidableEq

/-- Embedding of `validateCredentials` (binanceApi.ts lines 144-171): the
whole body is wrapped in try/catch; `response.ok` yields `true`, a non-ok
response returns `false`, and every thrown error is caught and also returns
`false` — the function never throws and returns only a boolean. -/
def validateCredentials : FetchOutcome → Bool
  | .ok _ => true
  | .httpError _ _ => false
  | .thrown _ => false

end BinanceApi

/-! ## The unnamed client variant (src/unnamed/part_002) -/

namespace Part002

/-- The request assembled by `BinanceApiClient.makeRequest` of
`src/unnamed/part_002` (lines 95-123): a plain `fetch` with a
`Content-Type` header, `credentials: 'include'`, no signature, no API-key
header, and no `AbortController` — hence no timeout. -/
def makeRequestSpec (baseUrl endpoint method : String) : RequestSpec :=
  { url := baseUrl ++ endpoint
    method := method
    headers := [("Content-Type", "application/json")]
    timeoutMs := none
    signatureParam := none }

/-- Embedding of the `validateCredentials` of `src/unnamed/part_002` (lines
140-172): structurally identical to the one of binanceApi.ts — ok response
gives `true`, non-ok response gives `false`, every caught exception gives
`false`. -/
def validateCredentials : BinanceApi.FetchOutcome → Bool
  | .ok _ => true
  | .httpError _ _ => false
  | .thrown _ => false

end Part002

/-! ## The Express proxy (src/server.js) -/

namespace Server

/-- `BINANCE_API_URL` (server.js line 19). -/
def binanceApiUrl : String := "https://api.binance.com"

/-- Embedding of the proxy's `generateSignature(queryString, apiSecret)`
(server.js lines 26-31): `crypto.createHmac('sha256', apiSecret)
.update(queryString).digest('hex')`, UTF-8 on both inputs. -/
def generateSignature (queryString apiSecret : String) : String :=
  nodeHexOfBytes (hmacSHA256 (utf8Encode apiSecret) (utf8Encode queryString))

/-- JavaScript falsiness of an optional query-string value: absent or
empty. -/
def falsy (o : Option String) : Bool := (o.getD "").isEmpty

/-- The query parameters of a `GET /api/balance` request to the proxy. -/
structure BalanceQuery where
  apiKey : Option String
  apiSecret : Option String
  deriving Repr, DecidableEq

/-- What the balance route does with a request: answer 400, or forward an
upstream request to the exchange. -/
inductive BalanceAction where
  | badRequest (status : ℕ) (errorMsg : String)
  | forward (req : RequestSpec)
  deriving Repr, DecidableEq

/-- The upstream request the balance route forwards to the exchange
(server.js lines 43-62): signed with the caller-supplied secret, the
caller-supplied key in the `X-MBX-APIKEY` header, and a 10000 ms axios
timeout. -/
def balanceForwardRequest (q : BalanceQuery) (timestamp : String) :
    RequestSpec :=
  let queryString := "timestamp=" ++ timestamp
  let signature := generateSignature queryString (q.apiSecret.getD "")
  { url := binanceApiUrl ++ "/api/v3/account?" ++ queryString ++
      "&signature=" ++ signature
    method := "GET"
    headers := [("X-MBX-APIKEY", q.apiKey.getD ""),
                ("User-Agent", "Mozilla/5.0"),
                ("Accept", "application/json")]
    timeoutMs := some 10000
    signatureParam := some signature }

/-- Embedding of the `app.get('/api/balance')` handler (server.js lines
33-62): both `apiKey` and `apiSecret` are read from the request query; if
either is falsy the proxy answers 400, otherwise it forwards the signed
upstream request. -/
def balanceHandler (q : BalanceQuery) (timestamp : String) : BalanceAction :=
  if falsy q.apiKey || falsy q.apiSecret then
    .badRequest 400 "API KeyとSecretが必要です"
  else .forward (balanceForwardRequest q timestamp)

/-- The upstream request built by the `app.get('/api/price/:symbol')`
handler (server.js lines 83-98): unauthenticated GET with a 5000 ms axios
timeout, no signature, no API-key header. -/
def priceRequest (symbol : String) : RequestSpec :=
  { url := binanceApiUrl ++ "/api/v3/ticker/price?symbol=" ++ symbol
    method := "GET"
    headers := [("Accept", "application/json")]
    timeoutMs := some 5000
    signatureParam := none }

end Server

/-! ## The application component (src/src/App.tsx) -/

namespace App

/-- The `ApiSettings` interface (App.tsx lines 49-54). -/
structure ApiSettings where
  exchange : String
  apiKey : String
  apiSecret : String
  testMode : Bool
  deriving Repr, DecidableEq

/-- The outcome of `handleApiSettingsSave`: the saved path performs its
`localStorage.setItem` writes and alerts success; the failed path (invalid
credentials, or an exception) only alerts. -/
inductive SaveResult where
  | saved (localStorageWrites : List (String × String)) (alertMsg : String)
  | failed (alertMsg : String)
  deriving Repr, DecidableEq

/-- The `localStorage.setItem` writes an outcome performed (none on the
failure path). -/
def SaveResult.writes : SaveResult → List (String × String)
  | .saved ws _ => ws
  | .failed _ => []

/-- Embedding of `handleApiSettingsSave` (App.tsx lines 806-833).  The
`validateCredentials` call is a network interaction, so its boolean result is
a parameter.  On success the handler writes `binanceApiKey`,
`binanceApiSecret` and `binanceTestMode` to `localStorage` — the second write
passes the raw `apiSettings.apiSecret` to `localStorage.setItem`. -/
def handleApiSettingsSave (s : ApiSettings) (credentialsValid : Bool) :
    SaveResult :=
  if credentialsValid then
    .saved
      [("binanceApiKey", s.apiKey),
       ("binanceApiSecret", s.apiSecret),
       ("binanceTestMode", if s.testMode then "true" else "false")]
      "API設定が保存されました"
  else
    .failed "API設定エラー: APIキーまたはシークレットが無効です"

/-- The `Order` interface of App.tsx (lines 19-27). -/
structure AppOrder where
  id : ℕ
  type : String
  price : ℚ
  amount : ℚ
  status : Option String
  deriving Repr, DecidableEq

/-- The slice of the component state the run-control handlers touch. -/
structure AppState where
  isRunning : Bool
  activeOrders : List AppOrder
  deriving Repr, DecidableEq

/-- A `cancelOrder` exchange call, as the specification expects one per open
order on a halt.  The embedded handlers are checked against the list of such
calls they actually issue. -/
structure CancelCall where
  symbol : String
  orderId : ℕ
  deriving Repr, DecidableEq

/-- Embedding of `toggleBotStatus` (App.tsx lines 391-393): it only flips
`isRunning`; no exchange call is made. -/
def toggleBotStatus (s : AppState) : AppState :=
  { s with isRunning := !s.isRunning }

/-- Embedding of the emergency-stop button handler (App.tsx lines 870-885):
`setIsRunning(false)` followed by `alert('緊急停止しました。すべての注文がキャン
セルされました。')`.  The handler issues no exchange call, so the list of
emitted cancel calls is empty. -/
def emergencyStopClick (s : AppState) :
    AppState × List CancelCall × String :=
  ({ s with isRunning := false }, [],
   "緊急停止しました。すべての注文がキャンセルされました。")

/-- A running session holding one exchange-confirmed OPEN order: the failing
input for the halt-behaviour claim. -/
def runningWithOpenOrder : AppState :=
  { isRunning := true
    activeOrders :=
      [{ id := 1, type := "buy", price := 27000, amount := 1 / 100,
         status := some "OPEN" }] }

end App

/-! ## The order ledger (spec section 4.4) -/

/-- Modelled from the spec: the repository contains no order-lifecycle code —
`src/unnamed/part_002` only declares `Order.status` as a plain string and no
file under `src/` transitions an order's status — so the OrderLedger state
machine of spec section 4.4, `PENDING` to `OPEN` to one of `FILLED`,
`CANCELLED`, `REJECTED`, is modelled here from the spec's words. -/
inductive OrderStatus where
  | PENDING
  | OPEN
  | FILLED
  | CANCELLED
  | REJECTED
  deriving Repr, DecidableEq

/-- Modelled from the spec: `FILLED`, `CANCELLED` and `REJECTED` are the
terminal states of the ledger's state machine. -/
def OrderStatus.isTerminal : OrderStatus → Bool
  | .FILLED => true
  | .CANCELLED => true
  | .REJECTED => true
  | _ => false

/-- Modelled from the spec: the logic errors the ledger surfaces — attempting
to leave a terminal state, or any transition outside the state machine. -/
inductive LedgerError where
  | terminalTransition (src tgt : OrderStatus)
  | invalidTransition (src tgt : OrderStatus)
  deriving Repr, DecidableEq

/-- Modelled from the spec: the ledger's transition function.  Only
`PENDING → OPEN` and `OPEN → FILLED | CANCELLED | REJECTED` succeed; a
transition out of a terminal state fails with a `terminalTransition` logic
error (never a silent no-op), anything else with `invalidTransition`. -/
def applyTransition (src tgt : OrderStatus) :
    Except LedgerError OrderStatus :=
  if src.isTerminal then .error (.terminalTransition src tgt)
  else
    match src, tgt with
    | .PENDING, .OPEN => .ok .OPEN
    | .OPEN, .FILLED => .ok .FILLED
    | .OPEN, .CANCELLED => .ok .CANCELLED
    | .OPEN, .REJECTED => .ok .REJECTED
    | _, _ => .error (.invalidTransition src tgt)

/-! ## Theorems -/

/-- The `i`-th grid line, in closed form. -/
theorem calculateGridLines_getD (s : GridSettings) (i : ℕ)
    (h : i ≤ s.gridNumber) :
    (calculateGridLines s).getD i 0 =
      s.lowerLimit +
        ((s.upperLimit - s.lowerLimit) / (s.gridNumber : ℚ)) * (i : ℚ) := by
  have hi : i < s.gridNumber + 1 := by omega
  simp only [calculateGridLines]
  rw [List.getD_eq_getElem?_getD, List.getElem?_map, List.getElem?_range hi]
  rfl

/-- Claim C1: for every valid grid configuration (`lowerLimit < upperLimit`,
`gridNumber ≥ 1`), `calculateGridLines` returns exactly `gridNumber + 1`
values, the `i`-th being `lowerLimit + interval * i` for the single interval
`(upperLimit - lowerLimit) / gridNumber`; the first level is `lowerLimit`,
the last is `upperLimit`, the values are strictly increasing, and adjacent
levels are evenly spaced by `calculateGridInterval`. -/
theorem grid_lines_valid_config (s : GridSettings)
    (h1 : s.lowerLimit < s.upperLimit) (h2 : 1 ≤ s.gridNumber) :
    (calculateGridLines s).length = s.gridNumber + 1 ∧
    (∀ i, i ≤ s.gridNumber → (calculateGridLines s).getD i 0 =
      s.lowerLimit +
        ((s.upperLimit - s.lowerLimit) / (s.gridNumber : ℚ)) * (i : ℚ)) ∧
    (calculateGridLines s).getD 0 0 = s.lowerLimit ∧
    (calculateGridLines s).getD s.gridNumber 0 = s.upperLimit ∧
    (∀ i j, i < j → j ≤ s.gridNumber →
      (calculateGridLines s).getD i 0 < (calculateGridLines s).getD j 0) ∧
    (∀ i, i < s.gridNumber →
      (calculateGridLines s).getD (i + 1) 0 -
        (calculateGridLines s).getD i 0 = calculateGridInterval s) := by
  have hn : (s.gridNumber : ℚ) ≠ 0 := Nat.cast_ne_zero.mpr (by omega)
  have hpos : 0 < (s.upperLimit - s.lowerLimit) / (s.gridNumber : ℚ) :=
    div_pos (sub_pos.mpr h1) (by exact_mod_cast Nat.pos_of_ne_zero (by omega))
  refine ⟨by simp only [calculateGridLines, List.length_map, List.length_range],
    calculateGridLines_getD s, ?_, ?_, ?_, ?_⟩
  · rw [calculateGridLines_getD s 0 (by omega)]; simp
  · rw [calculateGridLines_getD s s.gridNumber le_rfl,
      div_mul_cancel₀ _ hn]
    ring
  · intro i j hij hj
    rw [calculateGridLines_getD s i (by omega), calculateGridLines_getD s j hj]
    have : (i : ℚ) < (j : ℚ) := by exact_mod_cast hij
    exact add_lt_add_left (mul_lt_mul_of_pos_left this hpos) _
  · intro i hi
    rw [calculateGridLines_getD s i (by omega),
      calculateGridLines_getD s (i + 1) (by omega)]
    unfold calculateGridInterval
    push_cast
    ring

/-- Witness for C1 at the source's own default configuration
(`upper 30000, lower 25000, gridNumber 10`): the hypotheses hold and the grid
is the eleven points `25000, 25500, ..., 30000`. -/
theorem grid_lines_valid_config_witness :
    (defaultSettings.lowerLimit < defaultSettings.upperLimit ∧
      1 ≤ defaultSettings.gridNumber) ∧
    ((calculateGridLines defaultSettings).getD 0 0 =
        defaultSettings.lowerLimit ∧
      (calculateGridLines defaultSettings).getD defaultSettings.gridNumber 0 =
        defaultSettings.upperLimit) ∧
    calculateGridLines defaultSettings =
      [25000, 25500, 26000, 26500, 27000, 27500,
       28000, 28500, 29000, 29500, 30000] :=
  ⟨⟨by norm_num [defaultSettings], by norm_num [defaultSettings]⟩,
   ⟨(grid_lines_valid_config defaultSettings (by norm_num [defaultSettings])
        (by norm_num [defaultSettings])).2.2.1,
    (grid_lines_valid_config defaultSettings (by norm_num [defaultSettings])
        (by norm_num [defaultSettings])).2.2.2.1⟩,
   by norm_num [calculateGridLines, defaultSettings, List.range_succ]⟩

/-- Counterexample to claim C2: `updateSettings` rejects nothing.  Updating
the default settings with `gridNumber := 0` is accepted, and swapping the
bounds (`upperLimit 25000 < lowerLimit 30000`) is accepted and then used by
`calculateGridLines`, which computes a decreasing ladder from 30000 down to
25000 instead of failing with `InvalidConfiguration`. -/
theorem updateSettings_accepts_invalid :
    (updateSettings defaultSettings { gridNumber := some 0 }).gridNumber = 0 ∧
    (updateSettings defaultSettings
        { upperLimit := some 25000, lowerLimit := some 30000 }).upperLimit <
      (updateSettings defaultSettings
        { upperLimit := some 25000, lowerLimit := some 30000 }).lowerLimit ∧
    (calculateGridLines (updateSettings defaultSettings
        { upperLimit := some 25000, lowerLimit := some 30000 })).getD 0 0 =
      30000 ∧
    (calculateGridLines (updateSettings defaultSettings
        { upperLimit := some 25000, lowerLimit := some 30000 })).getD 10 0 =
      25000 := by
  refine ⟨rfl, by norm_num [updateSettings, defaultSettings], ?_, ?_⟩
  · rw [calculateGridLines_getD _ 0 (by norm_num [updateSettings, defaultSettings])]
    norm_num [updateSettings, defaultSettings]
  · rw [calculateGridLines_getD _ 10 (by norm_num [updateSettings, defaultSettings])]
    norm_num [updateSettings, defaultSettings]

/-- Claim C2 (amended): configuration updates are accepted unconditionally —
`updateSettings` is exactly the field-wise merge of the partial update into
the previous settings, with no validation and no error path;
`calculateGridLines` computes a `gridNumber + 1`-element ladder from whatever
settings are held, valid or not; and no invariant survives the update entry
point: from any previous state, every target configuration — including every
invalid one — is installable by a single update. -/
theorem updateSettings_no_validation
    (prev : GridSettings) (p : PartialGridSettings) :
    updateSettings prev p =
      { upperLimit := p.upperLimit.getD prev.upperLimit
        lowerLimit := p.lowerLimit.getD prev.lowerLimit
        gridNumber := p.gridNumber.getD prev.gridNumber
        initialInvestment := p.initialInvestment.getD prev.initialInvestment
        stopLoss := p.stopLoss.getD prev.stopLoss
        takeProfitLevel := p.takeProfitLevel.getD prev.takeProfitLevel } ∧
    (calculateGridLines (updateSettings prev p)).length =
      (updateSettings prev p).gridNumber + 1 ∧
    (∀ target : GridSettings, ∃ q : PartialGridSettings,
      updateSettings prev q = target) :=
  ⟨rfl, by simp only [calculateGridLines, List.length_map, List.length_range],
   fun target =>
     ⟨{ upperLimit := some target.upperLimit
        lowerLimit := some target.lowerLimit
        gridNumber := some target.gridNumber
        initialInvestment := some target.initialInvestment
        stopLoss := some target.stopLoss
        takeProfitLevel := some target.takeProfitLevel }, rfl⟩⟩

/-- Counterexample to claim C3: saving the API settings passes the raw
`apiSecret` to `localStorage.setItem` under the key `binanceApiSecret`, and
the proxy's balance endpoint does not accept key-only requests — a request
carrying only the API key is answered 400, because the surface requires the
secret itself as a query parameter. -/
theorem api_secret_leaves_boundary :
    ("binanceApiSecret", "s3cret") ∈
      (App.handleApiSettingsSave
        { exchange := "binance", apiKey := "k", apiSecret := "s3cret",
          testMode := true } true).writes ∧
    Server.balanceHandler { apiKey := some "k", apiSecret := none }
        "1700000000000" =
      .badRequest 400 "API KeyとSecretが必要です" := by
  constructor
  · simp [App.handleApiSettingsSave, App.SaveResult.writes]
  · rfl

/-- Claim C3 (amended): the secret crosses both boundaries.  Whenever
validation succeeds, `handleApiSettingsSave` writes the raw `apiSecret` to
`localStorage` (key `binanceApiSecret`); and the proxy's `/api/balance`
route requires `apiSecret` in the request query — it answers 400 whenever
the secret is missing, and otherwise forwards a request signed with the
caller-supplied secret. -/
theorem api_secret_persisted_and_required
    (s : App.ApiSettings) (q : Server.BalanceQuery) (ts : String)
    (hk : Server.falsy q.apiKey = false)
    (hs : Server.falsy q.apiSecret = false) :
    (App.handleApiSettingsSave s true).writes =
      [("binanceApiKey", s.apiKey), ("binanceApiSecret", s.apiSecret),
       ("binanceTestMode", if s.testMode then "true" else "false")] ∧
    Server.balanceHandler q ts = .forward (Server.balanceForwardRequest q ts) ∧
    (Server.balanceForwardRequest q ts).signatureParam =
      some (Server.generateSignature ("timestamp=" ++ ts)
        (q.apiSecret.getD "")) ∧
    (∀ q2 : Server.BalanceQuery, Server.falsy q2.apiSecret = true →
      Server.balanceHandler q2 ts =
        .badRequest 400 "API KeyとSecretが必要です") := by
  refine ⟨rfl, ?_, rfl, ?_⟩
  · simp [Server.balanceHandler, hk, hs]
  · intro q2 h2
    simp [Server.balanceHandler, h2]

/-- Witness for C3 (amended) at a concrete settings value and a concrete
balance query holding both credentials. -/
theorem api_secret_persisted_and_required_witness :
    Server.falsy (some "k") = false ∧
    Server.falsy (some "s3cret") = false ∧
    Server.balanceHandler { apiKey := some "k", apiSecret := some "s3cret" }
        "1700000000000" =
      .forward (Server.balanceForwardRequest
        { apiKey := some "k", apiSecret := some "s3cret" } "1700000000000") :=
  ⟨rfl, rfl,
   (api_secret_persisted_and_required
     { exchange := "binance", apiKey := "k", apiSecret := "s3cret",
       testMode := true }
     { apiKey := some "k", apiSecret := some "s3cret" }
     "1700000000000" rfl rfl).2.1⟩

/-- Keys not longer than 63 bytes pad to the same HMAC block whether or not
a zero byte is appended: RFC 2104 zero-pads short keys to the block size. -/
theorem hmacKeyPad_append_zero (key : List ℕ) (h : key.length ≤ 63) :
    hmacKeyPad (key ++ [0]) = hmacKeyPad key := by
  have h1 : ¬ (64 < key.length) := by omega
  have h2 : ¬ (64 < (key ++ [0]).length) := by
    simp only [List.length_append, List.length_cons, List.length_nil]
    omega
  simp only [hmacKeyPad, if_neg h1, if_neg h2]
  rw [List.append_assoc]
  congr 1
  have hlen : (key ++ [0]).length = key.length + 1 := by simp
  rw [hlen]
  have h64 : 64 - key.length = (64 - (key.length + 1)) + 1 := by omega
  rw [h64, List.replicate_succ]
  rfl

/-- Appending a zero byte to a short key never changes an HMAC-SHA256. -/
theorem hmacSHA256_key_append_zero (key msg : List ℕ)
    (h : key.length ≤ 63) :
    hmacSHA256 (key ++ [0]) msg = hmacSHA256 key msg := by
  simp only [hmacSHA256, hmacKeyPad_append_zero key h]

/-- Counterexample to claim C4: two distinct secrets whose byte encodings
differ in exactly one (appended) byte — `"a"` and `"a\x00"` — produce the
identical signature for the same message, because HMAC zero-pads keys
shorter than its 64-byte block. -/
theorem signature_single_byte_collision :
    "a" ≠ "a\x00" ∧
    utf8Encode "a\x00" = utf8Encode "a" ++ [0] ∧
    Server.generateSignature "timestamp=1699999999999" "a\x00" =
      Server.generateSignature "timestamp=1699999999999" "a" := by
  refine ⟨by decide, by decide, ?_⟩
  unfold Server.generateSignature
  rw [show utf8Encode "a\x00" = utf8Encode "a" ++ [0] by decide,
    hmacSHA256_key_append_zero _ _ (by decide)]

/-- Claim C4 (amended): signature generation is a pure, deterministic
function of the secret and the canonical query string — clients agreeing on
the secret produce the same signature whatever their other state — but a
single-byte change to the secret does not always change the signature:
appending a zero byte to a secret shorter than the HMAC block leaves every
signature unchanged. -/
theorem signature_deterministic_with_padding_exception
    (c c' : BinanceApi.Client) (q : String)
    (hsec : c.apiSecret = c'.apiSecret)
    (key msg : List ℕ) (hk : key.length ≤ 63) :
    BinanceApi.generateSignature c q = BinanceApi.generateSignature c' q ∧
    browserHexOfBytes (hmacSHA256 (key ++ [0]) msg) =
      browserHexOfBytes (hmacSHA256 key msg) := by
  constructor
  · unfold BinanceApi.generateSignature
    rw [hsec]
  · rw [hmacSHA256_key_append_zero key msg hk]

/-- Witness for C4 (amended): two clients differing in everything but the
secret, and the one-byte zero-pad key pair `[97]` / `[97, 0]`. -/
theorem signature_deterministic_with_padding_exception_witness :
    (BinanceApi.Client.mk "key-one" "secret" BinanceApi.testBaseUrl).apiSecret =
      (BinanceApi.Client.mk "key-two" "secret" BinanceApi.mainBaseUrl).apiSecret ∧
    ([97] : List ℕ).length ≤ 63 ∧
    (BinanceApi.generateSignature
        ⟨"key-one", "secret", BinanceApi.testBaseUrl⟩ "timestamp=1" =
      BinanceApi.generateSignature
        ⟨"key-two", "secret", BinanceApi.mainBaseUrl⟩ "timestamp=1" ∧
     browserHexOfBytes (hmacSHA256 ([97] ++ [0]) [1]) =
       browserHexOfBytes (hmacSHA256 [97] [1])) :=
  ⟨rfl, by norm_num,
   signature_deterministic_with_padding_exception
     ⟨"key-one", "secret", BinanceApi.testBaseUrl⟩
     ⟨"key-two", "secret", BinanceApi.mainBaseUrl⟩
     "timestamp=1" rfl [97] [1] (by norm_num)⟩

/-- Every byte of a SHA-256 digest is below 256. -/
theorem sha256_bytes_lt (msg : List ℕ) : ∀ b ∈ sha256 msg, b < 256 := by
  intro b hb
  simp only [sha256] at hb
  obtain ⟨l, hl, hbl⟩ := List.mem_flatten.mp hb
  obtain ⟨w, -, rfl⟩ := List.mem_map.mp hl
  simp only [wordBytes, List.mem_cons, List.not_mem_nil, or_false] at hbl
  rcases hbl with rfl | rfl | rfl | rfl <;> omega

/-- Every byte of an HMAC-SHA256 tag is below 256. -/
theorem hmacSHA256_bytes_lt (key msg : List ℕ) :
    ∀ b ∈ hmacSHA256 key msg, b < 256 := by
  intro b hb
  simp only [hmacSHA256] at hb
  exact sha256_bytes_lt _ b hb

set_option maxRecDepth 8192

/-- On actual bytes, the browser's `toString(16).padStart(2, '0')` hex path
and Node's `digest('hex')` hex path agree digit for digit. -/
theorem jsByteToHex_eq_nodeByteToHex : ∀ b < 256, jsByteToHex b = nodeByteToHex b := by
  decide

/-- Claim C5: the two signing implementations compute the same function —
for every client state and every query string, the browser's
`generateSignature` (crypto.subtle HMAC plus per-byte
`toString(16).padStart(2, '0')`) and the proxy's `generateSignature`
(`createHmac('sha256').digest('hex')`) return the identical lowercase hex
HMAC-SHA256 signature over the UTF-8 bytes of the query string under the
client's secret. -/
theorem browser_server_signature_agree
    (client : BinanceApi.Client) (queryString : String) :
    BinanceApi.generateSignature client queryString =
      Server.generateSignature queryString client.apiSecret := by
  unfold BinanceApi.generateSignature Server.generateSignature
    browserHexOfBytes nodeHexOfBytes
  congr 1
  exact List.map_congr_left fun b hb =>
    jsByteToHex_eq_nodeByteToHex b (hmacSHA256_bytes_lt _ _ b hb)

/-- Counterexample to claim C6: the unnamed client variant's `makeRequest`
installs no timeout at all, the browser client's price poll runs on the same
10000 ms budget as every other call rather than 5000 ms, and the browser
`validateCredentials` fetch also has no timeout. -/
theorem timeout_budgets_counterexample :
    (Part002.makeRequestSpec "https://api.binance.com/api/v3"
        "/ticker?symbol=BTCUSDT" "GET").timeoutMs = none ∧
    (BinanceApi.getCurrentPriceRequest ⟨"k", "s", BinanceApi.mainBaseUrl⟩
        "BTCUSDT" "1700000000000").timeoutMs = some 10000 ∧
    (BinanceApi.validateCredentialsRequest ⟨"k", "s", BinanceApi.mainBaseUrl⟩
        "1700000000000").timeoutMs = none :=
  ⟨rfl, rfl, rfl⟩

/-- Claim C6 (amended): the browser client's `makeRequest` (balance, order
and price calls alike) enforces a 10000 ms abort timeout and maps the fired
timeout to an error message distinct from the network-error message; the
proxy enforces 10000 ms on balance forwards and 5000 ms on price forwards;
but the unnamed variant's `makeRequest` and the browser
`validateCredentials` fetch enforce no timeout at all. -/
theorem timeout_budgets (client : BinanceApi.Client) (endpoint : String)
    (params : List (String × String))
    (ts symbol baseUrl ep method : String) (q : Server.BalanceQuery) :
    (BinanceApi.makeRequestSpec client endpoint params ts).timeoutMs =
      some 10000 ∧
    (BinanceApi.getCurrentPriceRequest client symbol ts).timeoutMs =
      some 10000 ∧
    (BinanceApi.getAccountBalanceRequest client ts).timeoutMs = some 10000 ∧
    (Server.priceRequest symbol).timeoutMs = some 5000 ∧
    (Server.balanceForwardRequest q ts).timeoutMs = some 10000 ∧
    (Part002.makeRequestSpec baseUrl ep method).timeoutMs = none ∧
    (BinanceApi.validateCredentialsRequest client ts).timeoutMs = none ∧
    BinanceApi.makeRequestFailureMessage .abortError ≠
      BinanceApi.makeRequestFailureMessage .failedToFetch :=
  ⟨rfl, rfl, rfl, rfl, rfl, rfl, rfl, by decide⟩

/-- Counterexample to claim C7: the browser client's price query is not
unauthenticated — it routes through the signing `makeRequest`, so the built
request carries a signature parameter and the `X-MBX-APIKEY` header. -/
theorem price_request_authenticated_counterexample :
    (BinanceApi.getCurrentPriceRequest ⟨"mykey", "s", BinanceApi.mainBaseUrl⟩
        "BTCUSDT" "1700000000000").signatureParam.isSome = true ∧
    ("X-MBX-APIKEY", "mykey") ∈
      (BinanceApi.getCurrentPriceRequest ⟨"mykey", "s", BinanceApi.mainBaseUrl⟩
        "BTCUSDT" "1700000000000").headers :=
  ⟨rfl, by simp [BinanceApi.getCurrentPriceRequest, BinanceApi.makeRequestSpec]⟩

/-- Claim C7 (amended): only the proxy's price route is an unauthenticated
GET — no signature parameter and an `Accept`-only header list — while the
browser client's `getCurrentPrice` builds a signed GET carrying both a
signature parameter and the `X-MBX-APIKEY` header. -/
theorem price_requests_auth_status
    (client : BinanceApi.Client) (symbol ts : String) :
    (Server.priceRequest symbol).signatureParam = none ∧
    (Server.priceRequest symbol).headers = [("Accept", "application/json")] ∧
    (Server.priceRequest symbol).method = "GET" ∧
    (BinanceApi.getCurrentPriceRequest client symbol ts).signatureParam =
      some (BinanceApi.generateSignature client
        (renderQuery [("symbol", symbol), ("timestamp", ts)])) ∧
    (BinanceApi.getCurrentPriceRequest client symbol ts).headers =
      [("X-MBX-APIKEY", client.apiKey)] :=
  ⟨rfl, rfl, rfl, rfl, rfl⟩

/-- Claim C8 (code defect): halting the engine cancels nothing.  On the
failing input — a running session with one OPEN order — the emergency-stop
handler emits zero cancel calls, merely flips `isRunning` to `false`, and
still reports that every order was cancelled; the ordinary stop
(`toggleBotStatus`) likewise only flips the flag. -/
theorem emergency_stop_cancels_nothing :
    (App.emergencyStopClick App.runningWithOpenOrder).2.1 = [] ∧
    (App.emergencyStopClick App.runningWithOpenOrder).1.isRunning = false ∧
    (App.emergencyStopClick App.runningWithOpenOrder).2.2 =
      "緊急停止しました。すべての注文がキャンセルされました。" ∧
    App.runningWithOpenOrder.activeOrders.length = 1 ∧
    (App.toggleBotStatus App.runningWithOpenOrder).isRunning = false :=
  ⟨rfl, rfl, rfl, rfl, rfl⟩

/-- Claim C9 (spec-modelled): terminal states of the order state machine are
final — a transition out of any terminal state, and out of `FILLED` in
particular, fails with a `terminalTransition` logic error and never succeeds
(so it is not a silent no-op). -/
theorem terminal_states_final (src tgt : OrderStatus)
    (h : src.isTerminal = true) :
    applyTransition src tgt = .error (.terminalTransition src tgt) ∧
    (∀ u, applyTransition src tgt ≠ .ok u) ∧
    applyTransition .FILLED tgt = .error (.terminalTransition .FILLED tgt) := by
  refine ⟨by simp [applyTransition, h], ?_,
    by simp [applyTransition, OrderStatus.isTerminal]⟩
  intro u
  simp [applyTransition, h]

/-- Witness for C9 at the `FILLED` terminal state. -/
theorem terminal_states_final_witness :
    OrderStatus.FILLED.isTerminal = true ∧
    applyTransition .FILLED .OPEN =
      .error (.terminalTransition .FILLED .OPEN) :=
  ⟨rfl, (terminal_states_final .FILLED .OPEN rfl).1⟩

/-- Claim C10: `validateCredentials` never surfaces a typed error — it
returns `true` exactly on a successful response and `false` on every other
outcome (non-ok status, thrown network failure, timeout, parse failure), so
its boolean collapses an authentication failure and a network outage into
the same value; the unnamed variant's `validateCredentials` is the same
function. -/
theorem validateCredentials_boolean_only :
    (∀ o, BinanceApi.validateCredentials o = true ↔
      ∃ body, o = BinanceApi.FetchOutcome.ok body) ∧
    (∀ status body msg,
      BinanceApi.validateCredentials (.httpError status body) =
        BinanceApi.validateCredentials (.thrown msg)) ∧
    (∀ o, Part002.validateCredentials o = BinanceApi.validateCredentials o) := by
  refine ⟨?_, fun _ _ _ => rfl, ?_⟩
  · intro o
    cases o <;> simp [BinanceApi.validateCredentials]
  · intro o
    cases o <;> rfl

/-- Witness for C10: a 401 and a network failure get the same boolean, and a
successful response gets `true`. -/
theorem validateCredentials_boolean_only_witness :
    BinanceApi.validateCredentials (.httpError 401 "Unauthorized") =
      BinanceApi.validateCredentials (.thrown "fetch failed") ∧
    BinanceApi.validateCredentials (.ok "balances") = true :=
  ⟨validateCredentials_boolean_only.2.1 401 "Unauthorized" "fetch failed",
   (validateCredentials_boolean_only.1 (.ok "balances")).mpr ⟨"balances", rfl⟩⟩
